import Mathlib

/-!
# Verification of the sesame-api access-control and resource-mutation layer

A shallow embedding of the CRUD layer of the `sesame-api` backend
(`app/crud/crud_list.py`, `app/crud/crud_place.py`, `app/crud/crud_user.py`,
plus the self-follow guard of `app/api/endpoints/users.py`).

The relational store (Postgres accessed through asyncpg) is modelled as an
explicit record of tables (`DB`).  Each SQL statement issued by the source is
translated to the corresponding pure operation on that record; statement-level
behaviour of the storage engine (uniqueness constraints, foreign keys,
NOT NULL constraints, affected-row counts) follows the schema the spec
describes in §3/§6, since the DDL itself is not part of the source tree.
Fallible operations return `Except`; operations that can mutate return the
post-statement database state explicitly, so that "no mutation happened" is a
provable equation rather than a modelling convention.
-/

namespace Sesame

/-- A row of the `users` table (columns used by the embedded operations). -/
structure UserRow where
  id : Nat
  email : String
  firebase_uid : Option String
  username : Option String
  display_name : Option String
  profile_picture : Option String
  updated_at : Nat
deriving Repr, DecidableEq

/-- A row of the `lists` table. -/
structure ListRow where
  id : Nat
  owner_id : Nat
  name : String
  description : Option String
  is_private : Bool
  created_at : Nat
  updated_at : Nat
deriving Repr, DecidableEq

/-- A row of the `list_collaborators` table. -/
structure CollabRow where
  list_id : Nat
  user_id : Nat
deriving Repr, DecidableEq

/-- A row of the `places` table.  `place_id` is the external place reference
(the catalogue identifier), distinct from the primary key `id`.  Coordinates
carry no arithmetic in the embedded code, so they are represented as `Int`. -/
structure PlaceRow where
  id : Nat
  list_id : Nat
  place_id : String
  name : String
  address : String
  latitude : Int
  longitude : Int
  rating : Option String
  notes : Option String
  visit_status : Option String
  created_at : Nat
  updated_at : Nat
deriving Repr, DecidableEq

/-- A row of the `user_follows` table. -/
structure FollowRow where
  follower_id : Nat
  followed_id : Nat
  created_at : Nat
deriving Repr, DecidableEq

/-- The database state: one list of rows per table, the id sequences backing
the `SERIAL` primary keys of `users` and `places`, and the clock observed by
SQL `NOW()`. -/
structure DB where
  users : List UserRow
  lists : List ListRow
  list_collaborators : List CollabRow
  places : List PlaceRow
  user_follows : List FollowRow
  nextUserId : Nat
  nextPlaceId : Nat
  now : Nat
deriving Repr, DecidableEq

/-- Typed errors of `crud_list.py`: `ListNotFoundError`,
`ListAccessDeniedError`, `CollaboratorAlreadyExistsError`,
`DatabaseInteractionError`. -/
inductive ListErr where
  | listNotFound
  | listAccessDenied
  | collaboratorAlreadyExists
  | databaseInteraction
deriving Repr, DecidableEq

/-- Typed errors of `crud_place.py`: `PlaceNotFoundError`,
`PlaceAlreadyExistsError`, `InvalidPlaceDataError`,
`DatabaseInteractionError`. -/
inductive PlaceErr where
  | placeNotFound
  | placeAlreadyExists
  | invalidPlaceData
  | databaseInteraction
deriving Repr, DecidableEq

/-- Typed errors of `crud_user.py` (`UserNotFoundError`,
`UsernameAlreadyExistsError`, `DatabaseInteractionError`) together with the
`ValueError` raised by `get_or_create_user_by_firebase` on missing
email/uid. -/
inductive UserErr where
  | userNotFound
  | usernameAlreadyExists
  | databaseInteraction
  | valueError
deriving Repr, DecidableEq

/-! ## Access Evaluator (`crud_list.check_list_ownership` / `check_list_access`) -/

/-- `check_list_ownership` (crud_list.py:429-446): first the combined
existence+permission query
`SELECT EXISTS (SELECT 1 FROM lists WHERE id=$1 AND owner_id=$2)`;
on failure the existence-only query
`SELECT EXISTS (SELECT 1 FROM lists WHERE id=$1)` decides between
`ListAccessDeniedError` and `ListNotFoundError`. -/
def check_list_ownership (db : DB) (list_id user_id : Nat) : Except ListErr Unit :=
  let owner_match := db.lists.any (fun l => l.id == list_id && l.owner_id == user_id)
  if owner_match then
    .ok ()
  else
    let list_exists := db.lists.any (fun l => l.id == list_id)
    if list_exists then .error .listAccessDenied else .error .listNotFound

/-- `check_list_access` (crud_list.py:449-482): step 1 is the combined query
(`lists` LEFT JOIN `list_collaborators` on `lc.list_id = l.id AND
lc.user_id = $2`, filtered by `l.id = $1 AND (l.owner_id = $2 OR lc.user_id
IS NOT NULL)`); step 2, run only when step 1 returns no row, is the
existence-only query `SELECT 1 FROM lists WHERE id = $1`. -/
def check_list_access (db : DB) (list_id user_id : Nat) : Except ListErr Unit :=
  let rec_found := db.lists.any (fun l =>
    l.id == list_id &&
      (l.owner_id == user_id ||
        db.list_collaborators.any (fun c => c.list_id == l.id && c.user_id == user_id)))
  if rec_found then
    .ok ()
  else
    let list_exists := db.lists.any (fun l => l.id == list_id)
    if list_exists then .error .listAccessDenied else .error .listNotFound

/-- The list row with id `L` exists. -/
def listExists (db : DB) (L : Nat) : Prop :=
  ∃ l ∈ db.lists, l.id = L

/-- User `U` owns the list `L`. -/
def isOwnerOf (db : DB) (L U : Nat) : Prop :=
  ∃ l ∈ db.lists, l.id = L ∧ l.owner_id = U

/-- User `U` is owner or collaborator of list `L` (the relationship
`check_list_access` requires). -/
def hasAccessTo (db : DB) (L U : Nat) : Prop :=
  ∃ l ∈ db.lists, l.id = L ∧
    (l.owner_id = U ∨ ∃ c ∈ db.list_collaborators, c.list_id = l.id ∧ c.user_id = U)

/-- C1: the access checks classify exactly as the spec states: `NotFound` iff
no list row with id `L` exists, `Forbidden` iff the list exists but `U` lacks
the required relationship, `ok` otherwise. -/
theorem access_checks_classify (db : DB) (L U : Nat) :
    (check_list_ownership db L U = .error .listNotFound ↔ ¬ listExists db L) ∧
    (check_list_ownership db L U = .error .listAccessDenied ↔
      (listExists db L ∧ ¬ isOwnerOf db L U)) ∧
    (check_list_ownership db L U = .ok () ↔ isOwnerOf db L U) ∧
    (check_list_access db L U = .error .listNotFound ↔ ¬ listExists db L) ∧
    (check_list_access db L U = .error .listAccessDenied ↔
      (listExists db L ∧ ¬ hasAccessTo db L U)) ∧
    (check_list_access db L U = .ok () ↔ hasAccessTo db L U) := by
  have hexists : db.lists.any (fun l => l.id == L) = true ↔ listExists db L := by
    simp [List.any_eq_true, listExists]
  have hown : db.lists.any (fun l => l.id == L && l.owner_id == U) = true ↔
      isOwnerOf db L U := by
    simp [List.any_eq_true, isOwnerOf]
  have hacc : db.lists.any (fun l =>
      l.id == L && (l.owner_id == U ||
        db.list_collaborators.any (fun c => c.list_id == l.id && c.user_id == U))) = true ↔
      hasAccessTo db L U := by
    simp [List.any_eq_true, hasAccessTo]
  have hoe : isOwnerOf db L U → listExists db L := by
    rintro ⟨l, hl, h1, _⟩; exact ⟨l, hl, h1⟩
  have hae : hasAccessTo db L U → listExists db L := by
    rintro ⟨l, hl, h1, _⟩; exact ⟨l, hl, h1⟩
  unfold check_list_ownership check_list_access
  refine ⟨?_, ?_, ?_, ?_, ?_, ?_⟩ <;>
    rcases how : db.lists.any (fun l => l.id == L && l.owner_id == U) with _ | _ <;>
    rcases hex : db.lists.any (fun l => l.id == L) with _ | _ <;>
    rcases hac : db.lists.any (fun l =>
      l.id == L && (l.owner_id == U ||
        db.list_collaborators.any (fun c => c.list_id == l.id && c.user_id == U))) with _ | _ <;>
    simp_all

/-! ## Collaborator operations (`crud_list.add_collaborator_to_list`) -/

/-- Step 1 of `add_collaborator_to_list` (crud_list.py:357-368): resolve the
user id for `email` (`SELECT id FROM users WHERE email = $1`), inserting a
placeholder user row when the email is unknown.  Returns the post-statement
database together with the resolved id. -/
def resolve_or_create_by_email (db : DB) (email : String) : DB × Nat :=
  match db.users.find? (fun u => u.email == email) with
  | some u => (db, u.id)
  | none =>
    let uid := db.nextUserId
    let row : UserRow :=
      { id := uid, email := email, firebase_uid := none, username := none,
        display_name := none, profile_picture := none, updated_at := db.now }
    ({ db with users := db.users ++ [row], nextUserId := uid + 1 }, uid)

/-- `add_collaborator_to_list` (crud_list.py:352-402):
1. resolve or create a user row for the email;
2. `SELECT owner_id FROM lists WHERE id = $1` — raise
   `CollaboratorAlreadyExistsError` when the fetched owner equals the
   resolved user (a missing list yields SQL NULL, which never equals an
   integer id, so the check is passed);
3. raise `CollaboratorAlreadyExistsError` when a membership row already
   exists;
4. `INSERT INTO list_collaborators (list_id, user_id) VALUES ($1, $2)` —
   when no list row with id `list_id` exists the insert violates the
   `list_collaborators.list_id → lists.id` foreign key (spec §6) and the
   generic handler wraps the fault as `DatabaseInteractionError`.
The returned database is the post-statement state: the module never
commits or rolls back, so a placeholder user inserted in step 1 persists
even when a later step raises. -/
def add_collaborator_to_list (db : DB) (list_id : Nat) (collaborator_email : String) :
    DB × Except ListErr Unit :=
  let resolved := resolve_or_create_by_email db collaborator_email
  let db1 := resolved.1
  let user_id := resolved.2
  let owner_id? := (db1.lists.find? (fun l => l.id == list_id)).map (·.owner_id)
  if owner_id? == some user_id then
    (db1, .error .collaboratorAlreadyExists)
  else if db1.list_collaborators.any (fun c => c.list_id == list_id && c.user_id == user_id) then
    (db1, .error .collaboratorAlreadyExists)
  else if db1.lists.any (fun l => l.id == list_id) then
    ({ db1 with list_collaborators := db1.list_collaborators ++ [⟨list_id, user_id⟩] }, .ok ())
  else
    (db1, .error .databaseInteraction)

theorem resolve_or_create_lists (db : DB) (email : String) :
    (resolve_or_create_by_email db email).1.lists = db.lists := by
  unfold resolve_or_create_by_email
  split <;> rfl

theorem resolve_or_create_collabs (db : DB) (email : String) :
    (resolve_or_create_by_email db email).1.list_collaborators = db.list_collaborators := by
  unfold resolve_or_create_by_email
  split <;> rfl

/-- The `lists` primary key invariant: list ids are pairwise distinct. -/
def listIdsNodup (db : DB) : Prop :=
  (db.lists.map (·.id)).Nodup

/-- List `L` has a collaborator row for user `U`. -/
def isCollaboratorRow (db : DB) (L U : Nat) : Prop :=
  ∃ c ∈ db.list_collaborators, c.list_id = L ∧ c.user_id = U

/-- `add_collaborator_to_list` with its let-bindings spelled out as
projections, for rewriting. -/
theorem add_collaborator_to_list_eq (db : DB) (L : Nat) (email : String) :
    add_collaborator_to_list db L email =
      (if (((resolve_or_create_by_email db email).1.lists.find?
              (fun l => l.id == L)).map (·.owner_id)) ==
            some (resolve_or_create_by_email db email).2 then
        ((resolve_or_create_by_email db email).1, .error .collaboratorAlreadyExists)
      else if (resolve_or_create_by_email db email).1.list_collaborators.any
          (fun c => c.list_id == L &&
            c.user_id == (resolve_or_create_by_email db email).2) then
        ((resolve_or_create_by_email db email).1, .error .collaboratorAlreadyExists)
      else if (resolve_or_create_by_email db email).1.lists.any (fun l => l.id == L) then
        ({ (resolve_or_create_by_email db email).1 with
            list_collaborators :=
              (resolve_or_create_by_email db email).1.list_collaborators ++
                [⟨L, (resolve_or_create_by_email db email).2⟩] }, .ok ())
      else
        ((resolve_or_create_by_email db email).1, .error .databaseInteraction)) := rfl

/-- C2: on a list `L` owned by `O`, add-collaborator-by-email rejects the
owner and any existing membership as `CollaboratorAlreadyExists` (a conflict,
never a silent no-op), inserts the membership row only when both checks pass,
and never lets `O` appear as a collaborator row of `L`. -/
theorem add_collaborator_owner_exclusivity
    (db : DB) (L O : Nat) (email : String)
    (hL : ∃ l ∈ db.lists, l.id = L ∧ l.owner_id = O)
    (hids : listIdsNodup db) :
    ((resolve_or_create_by_email db email).2 = O →
      (add_collaborator_to_list db L email).2 = .error .collaboratorAlreadyExists) ∧
    (isCollaboratorRow (resolve_or_create_by_email db email).1 L
        (resolve_or_create_by_email db email).2 →
      (add_collaborator_to_list db L email).2 = .error .collaboratorAlreadyExists) ∧
    ((add_collaborator_to_list db L email).2 = .ok () →
      (resolve_or_create_by_email db email).2 ≠ O ∧
      ¬ isCollaboratorRow (resolve_or_create_by_email db email).1 L
          (resolve_or_create_by_email db email).2 ∧
      (add_collaborator_to_list db L email).1.list_collaborators =
        (resolve_or_create_by_email db email).1.list_collaborators ++
          [⟨L, (resolve_or_create_by_email db email).2⟩]) ∧
    (¬ isCollaboratorRow db L O →
      ¬ isCollaboratorRow (add_collaborator_to_list db L email).1 L O) := by
  obtain ⟨l0, hl0mem, hl0id, hl0own⟩ := hL
  have hlists1 := resolve_or_create_lists db email
  have hcollab1 := resolve_or_create_collabs db email
  have hfind : (resolve_or_create_by_email db email).1.lists.find?
      (fun l => l.id == L) = some l0 := by
    rw [hlists1]
    rcases h : db.lists.find? (fun l => l.id == L) with _ | l
    · exact absurd (by simpa using List.find?_eq_none.mp h l0 hl0mem) (by simp [hl0id])
    · have hmem := List.mem_of_find?_eq_some h
      have hid : l.id = L := by simpa using List.find?_some h
      rw [h, List.inj_on_of_nodup_map hids hmem hl0mem (by rw [hid, hl0id])]
  have hexists : (resolve_or_create_by_email db email).1.lists.any
      (fun l => l.id == L) = true := by
    rw [hlists1]
    simp only [List.any_eq_true]
    exact ⟨l0, hl0mem, by simp [hl0id]⟩
  have hmemiff : ∀ b : Bool,
      (resolve_or_create_by_email db email).1.list_collaborators.any
        (fun c => c.list_id == L && c.user_id == (resolve_or_create_by_email db email).2) = b →
      (isCollaboratorRow (resolve_or_create_by_email db email).1 L
        (resolve_or_create_by_email db email).2 ↔ b = true) := by
    intro b hb
    rw [← hb]
    simp [List.any_eq_true, isCollaboratorRow, and_assoc]
  rw [add_collaborator_to_list_eq, hfind]
  simp only [Option.map_some']
  rcases eq_or_ne (resolve_or_create_by_email db email).2 O with hEq | hNe
  · -- owner collision: first branch fires
    have : ((some l0.owner_id == some (resolve_or_create_by_email db email).2) : Bool) = true := by
      simp [hl0own, hEq]
    rw [if_pos this]
    refine ⟨fun _ => rfl, fun _ => rfl, fun h => by simp at h, fun hno hyes => ?_⟩
    exact hno (by simpa [isCollaboratorRow, hcollab1] using hyes)
  · have hbranch1 : ((some l0.owner_id == some (resolve_or_create_by_email db email).2) : Bool)
        = false := by
      simp [hl0own]; exact fun h => hNe h.symm
    rw [if_neg (by simp [hbranch1])]
    rcases hmem : (resolve_or_create_by_email db email).1.list_collaborators.any
        (fun c => c.list_id == L && c.user_id == (resolve_or_create_by_email db email).2)
        with _ | _
    · -- no existing membership: insert branch
      rw [if_neg (by simp), if_pos hexists]
      have hnotmem := (hmemiff false hmem)
      refine ⟨fun h => absurd h hNe, fun h => by simp at hnotmem; exact absurd h hnotmem,
        fun _ => ⟨hNe, by simp at hnotmem; exact hnotmem, rfl⟩, fun hno hyes => ?_⟩
    -- preservation in the insert branch
      obtain ⟨c, hc, hcl, hcu⟩ := hyes
      rcases List.mem_append.mp hc with hc2 | hc2
      · rw [hcollab1] at hc2
        exact hno ⟨c, hc2, hcl, hcu⟩
      · simp at hc2
        rw [hc2] at hcu
        exact hNe (by simpa using hcu)
    · -- membership exists: second branch fires
      rw [if_pos rfl]
      refine ⟨fun _ => rfl, fun _ => rfl, fun h => by simp at h, fun hno hyes => ?_⟩
      exact hno (by simpa [isCollaboratorRow, hcollab1] using hyes)
/-- Witness for C2 at a concrete database: one list (id 1, owner 10), the
owner's email known, no collaborators. -/
theorem add_collaborator_owner_exclusivity_wit :
    (∃ l ∈ ({ users := [{ id := 10, email := "o@x.com", firebase_uid := none,
                          username := none, display_name := none,
                          profile_picture := none, updated_at := 0 }],
              lists := [{ id := 1, owner_id := 10, name := "L", description := none,
                          is_private := true, created_at := 0, updated_at := 0 }],
              list_collaborators := [], places := [], user_follows := [],
              nextUserId := 11, nextPlaceId := 1, now := 0 } : DB).lists,
        l.id = 1 ∧ l.owner_id = 10) ∧
    ((add_collaborator_to_list
        { users := [{ id := 10, email := "o@x.com", firebase_uid := none,
                      username := none, display_name := none,
                      profile_picture := none, updated_at := 0 }],
          lists := [{ id := 1, owner_id := 10, name := "L", description := none,
                      is_private := true, created_at := 0, updated_at := 0 }],
          list_collaborators := [], places := [], user_follows := [],
          nextUserId := 11, nextPlaceId := 1, now := 0 } 1 "o@x.com").2 =
      .error .collaboratorAlreadyExists) := by
  refine ⟨⟨{ id := 1, owner_id := 10, name := "L", description := none,
             is_private := true, created_at := 0, updated_at := 0 }, by simp, rfl, rfl⟩, ?_⟩
  exact (add_collaborator_owner_exclusivity _ 1 10 "o@x.com"
    ⟨{ id := 1, owner_id := 10, name := "L", description := none,
       is_private := true, created_at := 0, updated_at := 0 }, by simp, rfl, rfl⟩
    (by simp [listIdsNodup])).1 (by decide)

/-- The `list_collaborators.list_id → lists.id` foreign-key invariant: every
membership row references an existing list. -/
def collabFKInvariant (db : DB) : Prop :=
  ∀ c ∈ db.list_collaborators, ∃ l ∈ db.lists, l.id = c.list_id

/-- C9: calling add-collaborator-by-email with a list id for which no list
row exists raises neither `ListNotFoundError` nor `ListAccessDeniedError`:
the owner lookup yields SQL NULL, both conflict checks pass, and the
membership insert fails on the foreign key, surfacing only as the generic
`DatabaseInteractionError`. -/
theorem add_collaborator_missing_list
    (db : DB) (L : Nat) (email : String)
    (hL : ¬ listExists db L)
    (hFK : collabFKInvariant db) :
    (add_collaborator_to_list db L email).2 = .error .databaseInteraction := by
  have hlists1 := resolve_or_create_lists db email
  have hcollab1 := resolve_or_create_collabs db email
  have hfind : (resolve_or_create_by_email db email).1.lists.find?
      (fun l => l.id == L) = none := by
    rw [hlists1]
    rw [List.find?_eq_none]
    intro l hl
    simp only [beq_iff_eq]
    exact fun h => hL ⟨l, hl, h⟩
  have hnomem : (resolve_or_create_by_email db email).1.list_collaborators.any
      (fun c => c.list_id == L && c.user_id == (resolve_or_create_by_email db email).2)
      = false := by
    rw [hcollab1]
    rw [List.any_eq_false]
    intro c hc
    simp only [Bool.and_eq_true, beq_iff_eq, not_and]
    intro hcl _
    obtain ⟨l, hl, hlid⟩ := hFK c hc
    exact hL ⟨l, hl, by rw [hlid, hcl]⟩
  have hnolist : (resolve_or_create_by_email db email).1.lists.any
      (fun l => l.id == L) = false := by
    rw [hlists1]
    rw [List.any_eq_false]
    intro l hl
    simp only [beq_iff_eq]
    exact fun h => hL ⟨l, hl, h⟩
  rw [add_collaborator_to_list_eq, hfind]
  rw [if_neg (by simp)]
  rw [if_neg (by simp [hnomem])]
  rw [if_neg (by simp [hnolist])]

/-- Witness for C9: an empty database, so list 1 does not exist. -/
theorem add_collaborator_missing_list_wit :
    (¬ listExists
        { users := [], lists := [], list_collaborators := [], places := [],
          user_follows := [], nextUserId := 1, nextPlaceId := 1, now := 0 } 1) ∧
    ((add_collaborator_to_list
        { users := [], lists := [], list_collaborators := [], places := [],
          user_follows := [], nextUserId := 1, nextPlaceId := 1, now := 0 }
        1 "u2@x.com").2 = .error .databaseInteraction) := by
  constructor
  · rintro ⟨l, hl, -⟩
    simp at hl
  · exact add_collaborator_missing_list _ 1 "u2@x.com"
      (by rintro ⟨l, hl, -⟩; simp at hl)
      (by rintro c hc; simp at hc)

/-! ## Place Resource Manager (`crud_place.py`) -/

/-- `PlaceCreate` (app/schemas/place.py): body for adding a place to a list;
`placeId` is the external place reference. -/
structure PlaceCreate where
  placeId : String
  name : String
  address : String
  latitude : Int
  longitude : Int
  rating : Option String
  notes : Option String
  visitStatus : Option String
deriving Repr, DecidableEq

/-- `add_place_to_list` (crud_place.py:55-91): `INSERT INTO places ...
RETURNING ...`.  A duplicate (list_id, place_id) fires the storage
uniqueness constraint `places_list_id_place_id_key` (spec §6), which the
handler translates to the typed `PlaceAlreadyExistsError`; an insert against
a missing list fires the `places.list_id → lists.id` foreign key, wrapped by
the generic handler as `DatabaseInteractionError`. -/
def add_place_to_list (db : DB) (list_id : Nat) (p : PlaceCreate) :
    DB × Except PlaceErr PlaceRow :=
  if db.places.any (fun r => r.list_id == list_id && r.place_id == p.placeId) then
    (db, .error .placeAlreadyExists)
  else if db.lists.any (fun l => l.id == list_id) then
    let row : PlaceRow :=
      { id := db.nextPlaceId, list_id := list_id, place_id := p.placeId,
        name := p.name, address := p.address, latitude := p.latitude,
        longitude := p.longitude, rating := p.rating, notes := p.notes,
        visit_status := p.visitStatus, created_at := db.now, updated_at := db.now }
    ({ db with places := db.places ++ [row], nextPlaceId := db.nextPlaceId + 1 }, .ok row)
  else
    (db, .error .databaseInteraction)

/-- A column that the dynamic `SET` clause of `update_place`
(crud_place.py:109-122) can target from a dumped `PlaceUpdate` payload: the
nullable text columns of `places`. -/
inductive PlaceField where
  | notes
  | rating
  | visit_status
deriving Repr, DecidableEq

/-- The dictionary produced by
`place_update_in.model_dump(exclude_unset=True, by_alias=True)`: the
provided fields in insertion order, each with its possibly-null value.  The
current `PlaceUpdate` schema dumps either `[]` (nothing provided) or
`[(.notes, v)]`. -/
abbrev PlaceUpdatePayload := List (PlaceField × Option String)

/-- One `field_name = $i` assignment of the dynamic `SET` clause. -/
def applyPlaceField (r : PlaceRow) (f : PlaceField × Option String) : PlaceRow :=
  match f.1 with
  | .notes => { r with notes := f.2 }
  | .rating => { r with rating := f.2 }
  | .visit_status => { r with visit_status := f.2 }

/-- `update_place` (crud_place.py:94-140).  When every provided value is
null (`not any(v is not None ...)`), the no-op path re-reads the current row
scoped by `(id, list_id)` and raises `PlaceNotFoundError` when absent.
Otherwise `UPDATE places SET <provided fields>, updated_at = NOW() WHERE
id = $n AND list_id = $n+1 RETURNING ...`; a missing row yields no record
and raises `PlaceNotFoundError` after the statement. -/
def update_place (db : DB) (place_id list_id : Nat) (payload : PlaceUpdatePayload) :
    DB × Except PlaceErr PlaceRow :=
  if payload.all (fun f => f.2 == none) then
    match db.places.find? (fun r => r.id == place_id && r.list_id == list_id) with
    | none => (db, .error .placeNotFound)
    | some r => (db, .ok r)
  else
    let newPlaces := db.places.map (fun r =>
      if r.id == place_id && r.list_id == list_id then
        { payload.foldl applyPlaceField r with updated_at := db.now }
      else r)
    match newPlaces.find? (fun r => r.id == place_id && r.list_id == list_id) with
    | none => ({ db with places := newPlaces }, .error .placeNotFound)
    | some r => ({ db with places := newPlaces }, .ok r)

/-- `delete_place_from_list` (crud_place.py:143-160): `DELETE FROM places
WHERE id = $1 AND list_id = $2`; the affected-row count parsed from the
command tag decides the boolean result. -/
def delete_place_from_list (db : DB) (place_id list_id : Nat) : DB × Bool :=
  let deleted_count :=
    db.places.countP (fun r => r.id == place_id && r.list_id == list_id)
  ({ db with places :=
      db.places.filter (fun r => !(r.id == place_id && r.list_id == list_id)) },
    decide (0 < deleted_count))

/-- Number of place rows for a given (list id, external reference) pair. -/
def countPair (db : DB) (L : Nat) (ref : String) : Nat :=
  db.places.countP (fun r => r.list_id == L && r.place_id == ref)

/-- The storage uniqueness invariant on (list_id, place_id). -/
def placePairUnique (db : DB) : Prop :=
  ∀ L ref, countPair db L ref ≤ 1

/-- C3: at most one place row exists per (listId, externalPlaceRef) pair; a
colliding add fails with the typed `PlaceAlreadyExistsError`, leaves the
database untouched and hence exactly one row for the pair, and any outcome of
the operation preserves the uniqueness invariant. -/
theorem countP_append_single_le {α : Type} (l : List α) (q : α → Bool) (a : α)
    (h0 : q a = true → l.countP q = 0) (h1 : l.countP q ≤ 1) :
    (l ++ [a]).countP q ≤ 1 := by
  rw [List.countP_append, List.countP_singleton]
  rcases hq : q a with _ | _
  · simpa using h1
  · rw [h0 hq]
    simp

theorem add_place_ok_places (db : DB) (L : Nat) (p : PlaceCreate)
    (hdup : db.places.any (fun r => r.list_id == L && r.place_id == p.placeId) = false)
    (hlist : db.lists.any (fun l => l.id == L) = true) :
    (add_place_to_list db L p).1.places = db.places ++
      [{ id := db.nextPlaceId, list_id := L, place_id := p.placeId, name := p.name,
         address := p.address, latitude := p.latitude, longitude := p.longitude,
         rating := p.rating, notes := p.notes, visit_status := p.visitStatus,
         created_at := db.now, updated_at := db.now }] := by
  unfold add_place_to_list
  rw [hdup, hlist]
  simp

theorem add_place_dup_eq (db : DB) (L : Nat) (p : PlaceCreate)
    (hdup : db.places.any (fun r => r.list_id == L && r.place_id == p.placeId) = true) :
    add_place_to_list db L p = (db, .error .placeAlreadyExists) := by
  unfold add_place_to_list
  rw [hdup]
  simp

theorem add_place_missing_list_eq (db : DB) (L : Nat) (p : PlaceCreate)
    (hdup : db.places.any (fun r => r.list_id == L && r.place_id == p.placeId) = false)
    (hlist : db.lists.any (fun l => l.id == L) = false) :
    add_place_to_list db L p = (db, .error .databaseInteraction) := by
  unfold add_place_to_list
  rw [hdup, hlist]
  simp

/-- C3: at most one place row exists per (listId, externalPlaceRef) pair; a
colliding add fails with the typed `PlaceAlreadyExistsError`, leaves the
database untouched and hence exactly one row for the pair, and every outcome
of the operation preserves the uniqueness invariant. -/
theorem add_place_pair_uniqueness
    (db : DB) (L : Nat) (p : PlaceCreate)
    (hinv : placePairUnique db) :
    (0 < countPair db L p.placeId →
      add_place_to_list db L p = (db, .error .placeAlreadyExists) ∧
      countPair (add_place_to_list db L p).1 L p.placeId = 1) ∧
    placePairUnique (add_place_to_list db L p).1 := by
  have hiff : db.places.any (fun r => r.list_id == L && r.place_id == p.placeId) = true ↔
      0 < countPair db L p.placeId := by
    rw [countPair, List.countP_pos_iff, List.any_eq_true]
  rcases hdup : db.places.any (fun r => r.list_id == L && r.place_id == p.placeId)
      with _ | _
  · -- no collision
    have hzero : countPair db L p.placeId = 0 := by
      rcases Nat.eq_zero_or_pos (countPair db L p.placeId) with h | h
      · exact h
      · rw [hiff.mpr h] at hdup
        cases hdup
    refine ⟨fun hpos => absurd hzero (by omega), ?_⟩
    rcases hlist : db.lists.any (fun l => l.id == L) with _ | _
    · rw [add_place_missing_list_eq db L p hdup hlist]
      exact hinv
    · intro L' ref
      rw [countPair, add_place_ok_places db L p hdup hlist]
      apply countP_append_single_le
      · intro hq
        simp only [Bool.and_eq_true, beq_iff_eq] at hq
        have h1 := hq.1
        have h2 := hq.2
        have : countPair db L' ref = 0 := by
          rw [← h1, ← h2]
          exact hzero
        simpa [countPair] using this
      · simpa [countPair] using hinv L' ref
  · -- collision: typed error, unchanged state
    have hres := add_place_dup_eq db L p hdup
    refine ⟨fun hpos => ⟨hres, ?_⟩, ?_⟩
    · rw [hres]
      exact Nat.le_antisymm (hinv L p.placeId) hpos
    · rw [hres]
      exact hinv

/-- Concrete database for the C3 witness: one list (id 1) holding one place
with external reference "X1". -/
def dbC3 : DB where
  users := []
  lists := [{ id := 1, owner_id := 10, name := "L", description := none,
              is_private := false, created_at := 0, updated_at := 0 }]
  list_collaborators := []
  places := [{ id := 5, list_id := 1, place_id := "X1", name := "P",
               address := "A", latitude := 0, longitude := 0, rating := none,
               notes := none, visit_status := none, created_at := 0, updated_at := 0 }]
  user_follows := []
  nextUserId := 11
  nextPlaceId := 6
  now := 3

/-- The colliding payload for the C3 witness: external reference "X1" again. -/
def pC3 : PlaceCreate where
  placeId := "X1"
  name := "P2"
  address := "B"
  latitude := 1
  longitude := 1
  rating := none
  notes := none
  visitStatus := none

/-- Witness for C3: adding a second place with external reference "X1" to
list 1 collides and yields the typed error. -/
theorem add_place_pair_uniqueness_wit :
    0 < countPair dbC3 1 "X1" ∧
    add_place_to_list dbC3 1 pC3 = (dbC3, .error .placeAlreadyExists) := by
  refine ⟨by decide, ?_⟩
  have hinv : placePairUnique dbC3 := by
    intro L ref
    calc countPair dbC3 L ref ≤ dbC3.places.length := List.countP_le_length _
    _ ≤ 1 := by decide
  exact ((add_place_pair_uniqueness dbC3 1 pC3 hinv).1 (by decide)).1

/-- C4: updating or deleting a place through a (placeId, listId) pair that
matches no row — in particular a valid place addressed through the wrong
list — always fails (`PlaceNotFoundError` / `false`) and leaves every place
row in every list untouched. -/
theorem cross_list_isolation
    (db : DB) (P L : Nat) (payload : PlaceUpdatePayload)
    (h : ¬ ∃ r ∈ db.places, r.id = P ∧ r.list_id = L) :
    update_place db P L payload = (db, .error .placeNotFound) ∧
    delete_place_from_list db P L = (db, false) := by
  have hpred : ∀ r ∈ db.places, ((r.id == P && r.list_id == L) : Bool) = false := by
    intro r hr
    rcases hb : ((r.id == P && r.list_id == L) : Bool) with _ | _
    · rfl
    · simp only [Bool.and_eq_true, beq_iff_eq] at hb
      exact absurd ⟨r, hr, hb.1, hb.2⟩ h
  have hfind : db.places.find? (fun r => r.id == P && r.list_id == L) = none :=
    List.find?_eq_none.mpr (by intro r hr; simp [hpred r hr])
  have hmap : db.places.map (fun r =>
      if r.id == P && r.list_id == L then
        { payload.foldl applyPlaceField r with updated_at := db.now }
      else r) = db.places := by
    rw [List.map_congr_left (g := id), List.map_id]
    intro r hr
    simp [hpred r hr]
  have hfilter : db.places.filter (fun r => !(r.id == P && r.list_id == L)) = db.places := by
    rw [List.filter_eq_self]
    intro r hr
    simp [hpred r hr]
  have hcount : db.places.countP (fun r => r.id == P && r.list_id == L) = 0 := by
    rw [List.countP_eq_zero]
    intro r hr
    simp [hpred r hr]
  constructor
  · unfold update_place
    by_cases hall : payload.all (fun f => f.2 == none) = true
    · rw [if_pos hall, hfind]
    · rw [if_neg hall]
      have hfind2 : (db.places.map (fun r =>
          if r.id == P && r.list_id == L then
            { payload.foldl applyPlaceField r with updated_at := db.now }
          else r)).find? (fun r => r.id == P && r.list_id == L) = none := by
        rw [hmap]
        exact hfind
      simp only [hfind2, hmap, hfind]
  · unfold delete_place_from_list
    rw [hfilter, hcount]
    simp

/-- Concrete database for the C4 witness: place 5 lives in list 2, and list 1
also exists. -/
def dbC4 : DB where
  users := []
  lists := [{ id := 1, owner_id := 10, name := "A", description := none,
              is_private := false, created_at := 0, updated_at := 0 },
            { id := 2, owner_id := 10, name := "B", description := none,
              is_private := false, created_at := 0, updated_at := 0 }]
  list_collaborators := []
  places := [{ id := 5, list_id := 2, place_id := "X1", name := "P",
               address := "A", latitude := 0, longitude := 0, rating := none,
               notes := none, visit_status := none, created_at := 0, updated_at := 0 }]
  user_follows := []
  nextUserId := 11
  nextPlaceId := 6
  now := 3

/-- Witness for C4: mutating place 5 through list 1 (it belongs to list 2)
fails and changes nothing. -/
theorem cross_list_isolation_wit :
    (¬ ∃ r ∈ dbC4.places, r.id = 5 ∧ r.list_id = 1) ∧
    update_place dbC4 5 1 [(.notes, some "n")] = (dbC4, .error .placeNotFound) ∧
    delete_place_from_list dbC4 5 1 = (dbC4, false) := by
  have h : ¬ ∃ r ∈ dbC4.places, r.id = 5 ∧ r.list_id = 1 := by
    rintro ⟨r, hr, h5, h1⟩
    simp only [dbC4, List.mem_singleton] at hr
    rw [hr] at h1
    simp at h1
  have := cross_list_isolation dbC4 5 1 [(.notes, some "n")] h
  exact ⟨h, this.1, this.2⟩

/-! ## List Resource Manager: update (`crud_list.update_list`) -/

/-- `ListUpdate` (app/schemas/list.py): PATCH body with both fields
optional.  The outer `Option` records whether the field was provided at all
(`model_dump(exclude_unset=True)` drops unset fields); the inner one is the
provided, possibly null, value. -/
structure ListUpdate where
  name : Option (Option String)
  isPrivate : Option (Option Bool)
deriving Repr, DecidableEq

/-- The dictionary `update_list` returns: the `RETURNING id, name,
description, is_private` projection plus the resolved collaborator
emails. -/
structure ListDetails where
  id : Nat
  name : String
  description : Option String
  is_private : Bool
  collaborators : List String
deriving Repr, DecidableEq

/-- `_get_collaborator_emails` (crud_list.py:42-57): `SELECT u.email FROM
list_collaborators lc JOIN users u ON lc.user_id = u.id WHERE
lc.list_id = $1`. -/
def get_collaborator_emails (db : DB) (list_id : Nat) : List String :=
  (db.list_collaborators.filter (fun c => c.list_id == list_id)).filterMap
    (fun c => (db.users.find? (fun u => u.id == c.user_id)).map (·.email))

/-- `get_list_details` (crud_list.py:105-131): metadata plus collaborators;
`none` when the list does not exist. -/
def get_list_details (db : DB) (list_id : Nat) : Option ListDetails :=
  (db.lists.find? (fun l => l.id == list_id)).map (fun l =>
    { id := l.id, name := l.name, description := l.description,
      is_private := l.is_private,
      collaborators := get_collaborator_emails db list_id })

/-- `update_list` (crud_list.py:293-336).  An empty dumped payload takes the
no-op path and echoes `get_list_details` without touching the database.
Otherwise `UPDATE lists SET <provided fields>, updated_at = now() WHERE
id = $n RETURNING ...`: an UPDATE matching no row checks no constraint and
returns `None` (not an error); when a row matches, a provided null for
`name`/`is_private` violates the NOT NULL constraints of those columns
(spec §3 marks both required), the statement aborts without changing any
row, and the generic handler wraps the fault as
`DatabaseInteractionError`. -/
def update_list (db : DB) (list_id : Nat) (u : ListUpdate) :
    DB × Except ListErr (Option ListDetails) :=
  if u.name == none && u.isPrivate == none then
    (db, .ok (get_list_details db list_id))
  else if (u.name == some none || u.isPrivate == some none) &&
      db.lists.any (fun l => l.id == list_id) then
    (db, .error .databaseInteraction)
  else
    let newLists := db.lists.map (fun l =>
      if l.id == list_id then
        { l with
            name := u.name.join.getD l.name,
            is_private := u.isPrivate.join.getD l.is_private,
            updated_at := db.now }
      else l)
    let db' := { db with lists := newLists }
    (db', .ok (get_list_details db' list_id))

/-- C6: update with an empty partial payload is an idempotent no-op on any
database — it returns the current record (present whenever the list exists,
respectively the place exists in its list), mutates nothing and raises no
error, on the first and on a repeated call — while a payload supplying a
field applies exactly that field plus the update timestamp, leaving every
unsupplied column, every other row and every other table unchanged. -/
theorem empty_update_idempotent_noop (db : DB) (L P : Nat) :
    (update_list db L ⟨none, none⟩ = (db, .ok (get_list_details db L))) ∧
    (listExists db L → (get_list_details db L).isSome) ∧
    (update_list (update_list db L ⟨none, none⟩).1 L ⟨none, none⟩ =
      (db, .ok (get_list_details db L))) ∧
    ((∃ r ∈ db.places, r.id = P ∧ r.list_id = L) →
      ∃ r0, db.places.find? (fun r => r.id == P && r.list_id == L) = some r0 ∧
        update_place db P L [] = (db, .ok r0) ∧
        update_place (update_place db P L []).1 P L [] = (db, .ok r0)) ∧
    (∀ s : String,
      (update_list db L ⟨some (some s), none⟩).1.users = db.users ∧
      (update_list db L ⟨some (some s), none⟩).1.places = db.places ∧
      (update_list db L ⟨some (some s), none⟩).1.list_collaborators =
        db.list_collaborators ∧
      ∀ l ∈ db.lists,
        (l.id ≠ L → l ∈ (update_list db L ⟨some (some s), none⟩).1.lists) ∧
        (l.id = L → { l with name := s, updated_at := db.now } ∈
          (update_list db L ⟨some (some s), none⟩).1.lists)) ∧
    (∀ b : Bool,
      (update_list db L ⟨none, some (some b)⟩).1.users = db.users ∧
      (update_list db L ⟨none, some (some b)⟩).1.places = db.places ∧
      (update_list db L ⟨none, some (some b)⟩).1.list_collaborators =
        db.list_collaborators ∧
      ∀ l ∈ db.lists,
        (l.id ≠ L → l ∈ (update_list db L ⟨none, some (some b)⟩).1.lists) ∧
        (l.id = L → { l with is_private := b, updated_at := db.now } ∈
          (update_list db L ⟨none, some (some b)⟩).1.lists)) ∧
    (∀ s, ∀ r ∈ db.places,
      (¬ (r.id = P ∧ r.list_id = L) →
        r ∈ (update_place db P L [(.notes, some s)]).1.places) ∧
      (r.id = P ∧ r.list_id = L →
        { r with notes := some s, updated_at := db.now } ∈
          (update_place db P L [(.notes, some s)]).1.places)) := by
  have hnoop : update_list db L ⟨none, none⟩ = (db, .ok (get_list_details db L)) := rfl
  refine ⟨hnoop, ?_, ?_, ?_, ?_, ?_, ?_⟩
  · -- the echoed record is present whenever the list exists
    intro hl
    obtain ⟨l, hlmem, hlid⟩ := hl
    have hs : (db.lists.find? (fun l => l.id == L)).isSome := by
      rw [List.find?_isSome]
      exact ⟨l, hlmem, by simp [hlid]⟩
    simpa [get_list_details] using hs
  · -- repeated empty-payload list update: same result, same state
    rw [hnoop]
    exact hnoop
  · -- place no-op path, for a place that lives in list L
    intro hp
    obtain ⟨r0, hr0mem, hr0id, hr0lid⟩ := hp
    have hsome : (db.places.find? (fun r => r.id == P && r.list_id == L)).isSome := by
      rw [List.find?_isSome]
      exact ⟨r0, hr0mem, by simp [hr0id, hr0lid]⟩
    obtain ⟨r1, hr1⟩ := Option.isSome_iff_exists.mp hsome
    have hall : (([] : PlaceUpdatePayload).all (fun f => f.2 == none)) = true := rfl
    have h1 : update_place db P L [] = (db, .ok r1) := by
      unfold update_place
      rw [if_pos hall, hr1]
    refine ⟨r1, hr1, h1, ?_⟩
    rw [h1]
    exact h1
  · -- name-only payload: name and updated_at change, nothing else
    intro s
    have heq : update_list db L ⟨some (some s), none⟩ =
        ({ db with lists := db.lists.map (fun l => if l.id == L then
            { l with name := s, updated_at := db.now } else l) },
          .ok (get_list_details { db with lists := db.lists.map (fun l => if l.id == L then
            { l with name := s, updated_at := db.now } else l) } L)) := rfl
    refine ⟨by rw [heq], by rw [heq], by rw [heq], ?_⟩
    intro l hlmem
    constructor
    · intro hne
      rw [heq]
      have hcond : ¬ ((l.id == L) = true) := by
        simp only [beq_iff_eq]
        exact hne
      exact List.mem_map.mpr ⟨l, hlmem, by simp [hcond]⟩
    · intro hid
      rw [heq]
      have hcond : ((l.id == L) = true) := by
        simp [hid]
      exact List.mem_map.mpr ⟨l, hlmem, by simp [hcond]⟩
  · -- isPrivate-only payload: is_private and updated_at change, nothing else
    intro b
    have heq : update_list db L ⟨none, some (some b)⟩ =
        ({ db with lists := db.lists.map (fun l => if l.id == L then
            { l with is_private := b, updated_at := db.now } else l) },
          .ok (get_list_details { db with lists := db.lists.map (fun l => if l.id == L then
            { l with is_private := b, updated_at := db.now } else l) } L)) := rfl
    refine ⟨by rw [heq], by rw [heq], by rw [heq], ?_⟩
    intro l hlmem
    constructor
    · intro hne
      rw [heq]
      have hcond : ¬ ((l.id == L) = true) := by
        simp only [beq_iff_eq]
        exact hne
      exact List.mem_map.mpr ⟨l, hlmem, by simp [hcond]⟩
    · intro hid
      rw [heq]
      have hcond : ((l.id == L) = true) := by
        simp [hid]
      exact List.mem_map.mpr ⟨l, hlmem, by simp [hcond]⟩
  · -- place notes-only payload
    intro s r hrmem
    have hplaces : (update_place db P L [(.notes, some s)]).1.places =
        db.places.map (fun r => if r.id == P && r.list_id == L then
          { r with notes := some s, updated_at := db.now } else r) := by
      have hfalse : (([(.notes, some s)] : PlaceUpdatePayload).all
          (fun f => f.2 == none)) = false := rfl
      unfold update_place
      rw [if_neg (by simp [hfalse])]
      dsimp only
      split <;> rfl
    constructor
    · intro hne
      rw [hplaces]
      have hcond : ¬ ((r.id == P && r.list_id == L) = true) := by
        simp only [Bool.and_eq_true, beq_iff_eq]
        exact fun h => hne h
      exact List.mem_map.mpr ⟨r, hrmem, by simp [hcond]⟩
    · intro hmatch
      rw [hplaces]
      have hcond : ((r.id == P && r.list_id == L) = true) := by
        simp [hmatch.1, hmatch.2]
      exact List.mem_map.mpr ⟨r, hrmem, by simp [hcond]⟩

/-- Concrete database for the C6 witness: list 1 with place 5 inside it. -/
def dbC6 : DB where
  users := []
  lists := [{ id := 1, owner_id := 10, name := "L", description := none,
              is_private := false, created_at := 0, updated_at := 0 }]
  list_collaborators := []
  places := [{ id := 5, list_id := 1, place_id := "X1", name := "P",
               address := "A", latitude := 0, longitude := 0, rating := none,
               notes := none, visit_status := none, created_at := 0, updated_at := 0 }]
  user_follows := []
  nextUserId := 11
  nextPlaceId := 6
  now := 3

/-- Witness for C6: on `dbC6`, the empty-payload update of list 1 echoes the
current details with unchanged state, the echoed record is present, and the
empty-payload update of place 5 returns the stored row, twice. -/
theorem empty_update_idempotent_noop_wit :
    listExists dbC6 1 ∧
    (∃ r ∈ dbC6.places, r.id = 5 ∧ r.list_id = 1) ∧
    update_list dbC6 1 ⟨none, none⟩ = (dbC6, .ok (get_list_details dbC6 1)) ∧
    (get_list_details dbC6 1).isSome ∧
    (∃ r0, dbC6.places.find? (fun r => r.id == 5 && r.list_id == 1) = some r0 ∧
      update_place dbC6 5 1 [] = (dbC6, .ok r0) ∧
      update_place (update_place dbC6 5 1 []).1 5 1 [] = (dbC6, .ok r0)) := by
  have h1 : listExists dbC6 1 :=
    ⟨{ id := 1, owner_id := 10, name := "L", description := none,
       is_private := false, created_at := 0, updated_at := 0 }, by simp [dbC6], rfl⟩
  have h2 : ∃ r ∈ dbC6.places, r.id = 5 ∧ r.list_id = 1 :=
    ⟨{ id := 5, list_id := 1, place_id := "X1", name := "P",
       address := "A", latitude := 0, longitude := 0, rating := none,
       notes := none, visit_status := none, created_at := 0, updated_at := 0 },
     by simp [dbC6], rfl, rfl⟩
  have ht := empty_update_idempotent_noop dbC6 1 5
  exact ⟨h1, h2, ht.1, ht.2.1 h1, ht.2.2.2.1 h2⟩

/-- C10: `update_place` takes the no-op path whenever every provided field
is null — it returns the current record (still scoped by listId) instead of
setting columns to NULL — while a provided null is applied as NULL exactly
when some other provided field is non-null. -/
theorem place_update_all_none_semantics
    (db : DB) (P L : Nat) (payload : PlaceUpdatePayload)
    (hall : ∀ f ∈ payload, f.2 = none)
    (hp : ∃ r ∈ db.places, r.id = P ∧ r.list_id = L) :
    (∃ r0, db.places.find? (fun r => r.id == P && r.list_id == L) = some r0 ∧
      update_place db P L payload = (db, .ok r0)) ∧
    (∀ L', (¬ ∃ r ∈ db.places, r.id = P ∧ r.list_id = L') →
      update_place db P L' payload = (db, .error .placeNotFound)) ∧
    (∀ s, ∀ r ∈ db.places, r.id = P → r.list_id = L →
      { r with notes := none, rating := some s, updated_at := db.now } ∈
        (update_place db P L [(.notes, none), (.rating, some s)]).1.places) := by
  obtain ⟨r0, hr0mem, hr0id, hr0lid⟩ := hp
  have hallB : payload.all (fun f => f.2 == none) = true := by
    rw [List.all_eq_true]
    intro f hf
    simp [hall f hf]
  refine ⟨?_, ?_, ?_⟩
  · have hsome : (db.places.find? (fun r => r.id == P && r.list_id == L)).isSome := by
      rw [List.find?_isSome]
      exact ⟨r0, hr0mem, by simp [hr0id, hr0lid]⟩
    obtain ⟨r1, hr1⟩ := Option.isSome_iff_exists.mp hsome
    refine ⟨r1, hr1, ?_⟩
    unfold update_place
    rw [if_pos hallB, hr1]
  · intro L' hno
    have hnone : db.places.find? (fun r => r.id == P && r.list_id == L') = none := by
      rw [List.find?_eq_none]
      intro r hr
      simp only [Bool.and_eq_true, beq_iff_eq, not_and]
      exact fun h1 h2 => hno ⟨r, hr, h1, h2⟩
    unfold update_place
    rw [if_pos hallB, hnone]
  · intro s r hrmem hrid hrlid
    have hfalse : (([(.notes, none), (.rating, some s)] : PlaceUpdatePayload).all
        (fun f => f.2 == none)) = false := rfl
    have hplaces : (update_place db P L [(.notes, none), (.rating, some s)]).1.places =
        db.places.map (fun r => if r.id == P && r.list_id == L then
          { r with notes := none, rating := some s, updated_at := db.now } else r) := by
      unfold update_place
      rw [if_neg (by simp [hfalse])]
      dsimp only
      split <;> rfl
    rw [hplaces]
    have hcond : ((r.id == P && r.list_id == L) = true) := by
      simp [hrid, hrlid]
    exact List.mem_map.mpr ⟨r, hrmem, by simp [hcond]⟩

/-- Concrete database for the C10 witness: place 5 in list 1, with existing
non-null notes. -/
def dbC10 : DB where
  users := []
  lists := [{ id := 1, owner_id := 10, name := "L", description := none,
              is_private := false, created_at := 0, updated_at := 0 }]
  list_collaborators := []
  places := [{ id := 5, list_id := 1, place_id := "X1", name := "P",
               address := "A", latitude := 0, longitude := 0, rating := none,
               notes := some "old", visit_status := none,
               created_at := 0, updated_at := 0 }]
  user_follows := []
  nextUserId := 11
  nextPlaceId := 6
  now := 3

/-- Witness for C10: a payload providing only `notes = null` takes the no-op
path on `dbC10` — the stored notes stay "old" and the state is unchanged. -/
theorem place_update_all_none_semantics_wit :
    (∀ f ∈ ([(.notes, none)] : PlaceUpdatePayload), f.2 = none) ∧
    (∃ r ∈ dbC10.places, r.id = 5 ∧ r.list_id = 1) ∧
    update_place dbC10 5 1 [(.notes, none)] =
      (dbC10, .ok { id := 5, list_id := 1, place_id := "X1", name := "P",
                    address := "A", latitude := 0, longitude := 0, rating := none,
                    notes := some "old", visit_status := none,
                    created_at := 0, updated_at := 0 }) := by
  have hall : ∀ f ∈ ([(.notes, none)] : PlaceUpdatePayload), f.2 = none := by
    intro f hf
    simp only [List.mem_singleton] at hf
    rw [hf]
  have hp : ∃ r ∈ dbC10.places, r.id = 5 ∧ r.list_id = 1 :=
    ⟨{ id := 5, list_id := 1, place_id := "X1", name := "P",
       address := "A", latitude := 0, longitude := 0, rating := none,
       notes := some "old", visit_status := none, created_at := 0, updated_at := 0 },
     by simp [dbC10], rfl, rfl⟩
  obtain ⟨r0, hfind, hupd⟩ := (place_update_all_none_semantics dbC10 5 1
    [(.notes, none)] hall hp).1
  have : r0 = { id := 5, list_id := 1, place_id := "X1", name := "P",
                address := "A", latitude := 0, longitude := 0, rating := none,
                notes := some "old", visit_status := none,
                created_at := 0, updated_at := 0 } := by
    have : dbC10.places.find? (fun r => r.id == 5 && r.list_id == 1) =
        some { id := 5, list_id := 1, place_id := "X1", name := "P",
               address := "A", latitude := 0, longitude := 0, rating := none,
               notes := some "old", visit_status := none,
               created_at := 0, updated_at := 0 } := rfl
    rw [this] at hfind
    exact (Option.some_inj.mp hfind).symm
  refine ⟨hall, hp, ?_⟩
  rw [← this]
  exact hupd

/-! ## Social Graph Manager (`crud_user.follow_user` and its endpoint) -/

/-- `check_user_exists` (crud_user.py:81-90):
`SELECT EXISTS (SELECT 1 FROM users WHERE id = $1)`. -/
def check_user_exists (db : DB) (user_id : Nat) : Bool :=
  db.users.any (fun u => u.id == user_id)

/-- `follow_user` (crud_user.py:362-393): `UserNotFoundError` when the
target is missing; otherwise `INSERT INTO user_follows ... ON CONFLICT
(follower_id, followed_id) DO NOTHING RETURNING created_at` — a NULL
`RETURNING` value (conflict fired) means "already following" (`true`), an
inserted row means "newly followed" (`false`). -/
def follow_user (db : DB) (follower_id followed_id : Nat) :
    DB × Except UserErr Bool :=
  if !(check_user_exists db followed_id) then
    (db, .error .userNotFound)
  else if db.user_follows.any
      (fun f => f.follower_id == follower_id && f.followed_id == followed_id) then
    (db, .ok true)
  else
    ({ db with user_follows :=
        db.user_follows ++ [⟨follower_id, followed_id, db.now⟩] }, .ok false)

/-- The HTTP outcomes of the follow endpoint. -/
inductive FollowResp where
  | badRequest
  | created
  | okAlready
  | notFound
  | serverError
deriving Repr, DecidableEq

/-- The follow endpoint (users.py:325-356): the self-follow guard
(`current_user_id == user_id → 400`) sits above the manager; otherwise the
manager's boolean maps to 200 ("already following") or 201 ("followed"),
`UserNotFoundError` to 404 and any other fault to 500. -/
def follow_user_endpoint (db : DB) (current_user_id user_id : Nat) :
    DB × FollowResp :=
  if current_user_id == user_id then
    (db, .badRequest)
  else
    match follow_user db current_user_id user_id with
    | (db', .ok true) => (db', .okAlready)
    | (db', .ok false) => (db', .created)
    | (db', .error .userNotFound) => (db', .notFound)
    | (db', .error _) => (db', .serverError)

/-- Number of follow-edge rows from `F` to `T`. -/
def countEdge (db : DB) (F T : Nat) : Nat :=
  db.user_follows.countP (fun f => f.follower_id == F && f.followed_id == T)

/-- The user row with id `U` exists. -/
def userExists (db : DB) (U : Nat) : Prop :=
  ∃ u ∈ db.users, u.id = U

theorem check_user_exists_iff (db : DB) (U : Nat) :
    check_user_exists db U = true ↔ userExists db U := by
  simp [check_user_exists, userExists, List.any_eq_true]

/-- C7: Follow returns `false` ("newly followed") when no (F, T) edge
existed and `true` ("already following") when it did; after two consecutive
calls exactly one edge row exists; a missing target yields
`UserNotFoundError`; and the endpoint rejects a self-follow with 400
regardless of any other state. -/
theorem follow_semantics
    (db : DB) (F T : Nat)
    (hT : userExists db T)
    (hcnt : countEdge db F T ≤ 1) :
    (countEdge db F T = 0 →
      follow_user db F T =
        ({ db with user_follows := db.user_follows ++ [⟨F, T, db.now⟩] }, .ok false)) ∧
    (0 < countEdge db F T → follow_user db F T = (db, .ok true)) ∧
    countEdge (follow_user (follow_user db F T).1 F T).1 F T = 1 ∧
    (∀ (db0 : DB) (F0 T0 : Nat), ¬ userExists db0 T0 →
      follow_user db0 F0 T0 = (db0, .error .userNotFound)) ∧
    (∀ (db0 : DB) (F0 : Nat), follow_user_endpoint db0 F0 F0 = (db0, .badRequest)) := by
  have hchk : check_user_exists db T = true := (check_user_exists_iff db T).mpr hT
  have hnew : countEdge db F T = 0 →
      follow_user db F T =
        ({ db with user_follows := db.user_follows ++ [⟨F, T, db.now⟩] }, .ok false) := by
    intro h0
    have hany : db.user_follows.any
        (fun f => f.follower_id == F && f.followed_id == T) = false := by
      rcases hb : db.user_follows.any
          (fun f => f.follower_id == F && f.followed_id == T) with _ | _
      · rfl
      · rw [List.any_eq_true] at hb
        obtain ⟨f, hf, hpf⟩ := hb
        have := List.countP_eq_zero.mp h0 f hf
        exact absurd hpf this
    unfold follow_user
    rw [hchk, hany]
    simp
  have hold : 0 < countEdge db F T → follow_user db F T = (db, .ok true) := by
    intro hpos
    have hany : db.user_follows.any
        (fun f => f.follower_id == F && f.followed_id == T) = true := by
      rw [List.any_eq_true]
      exact List.countP_pos_iff.mp hpos
    unfold follow_user
    rw [hchk, hany]
    simp
  refine ⟨hnew, hold, ?_, ?_, ?_⟩
  · -- two consecutive calls leave exactly one edge
    rcases Nat.eq_zero_or_pos (countEdge db F T) with h0 | hpos
    · have h1 := hnew h0
      rw [h1]
      have hT1 : userExists { db with user_follows :=
          db.user_follows ++ [⟨F, T, db.now⟩] } T := hT
      have hc1 : countEdge { db with user_follows :=
          db.user_follows ++ [⟨F, T, db.now⟩] } F T = 1 := by
        simp only [countEdge, List.countP_append, List.countP_singleton]
        simp only [countEdge] at h0
        rw [h0]
        simp
      have hchk1 : check_user_exists { db with user_follows :=
          db.user_follows ++ [⟨F, T, db.now⟩] } T = true :=
        (check_user_exists_iff _ T).mpr hT1
      have hany1 : ({ db with user_follows := db.user_follows ++ [⟨F, T, db.now⟩] } :
          DB).user_follows.any (fun f => f.follower_id == F && f.followed_id == T)
          = true := by
        show (db.user_follows ++ [(⟨F, T, db.now⟩ : FollowRow)]).any
          (fun f => f.follower_id == F && f.followed_id == T) = true
        rw [List.any_eq_true]
        exact ⟨(⟨F, T, db.now⟩ : FollowRow), by simp, by simp⟩
      have h2 : follow_user { db with user_follows :=
          db.user_follows ++ [⟨F, T, db.now⟩] } F T =
          ({ db with user_follows := db.user_follows ++ [⟨F, T, db.now⟩] }, .ok true) := by
        unfold follow_user
        rw [hchk1, hany1]
        simp
      rw [h2]
      exact hc1
    · have h1 := hold hpos
      rw [h1]
      rw [h1]
      exact Nat.le_antisymm hcnt hpos
  · -- missing target
    intro db0 F0 T0 hno
    have hchk0 : check_user_exists db0 T0 = false := by
      rcases hb : check_user_exists db0 T0 with _ | _
      · rfl
      · exact absurd ((check_user_exists_iff db0 T0).mp hb) hno
    unfold follow_user
    rw [hchk0]
    simp
  · -- self-follow guard
    intro db0 F0
    simp [follow_user_endpoint]

/-- Concrete database for the C7 witness: users 1 and 2, no follow edges. -/
def dbC7 : DB where
  users := [{ id := 1, email := "a@x.com", firebase_uid := none, username := none,
              display_name := none, profile_picture := none, updated_at := 0 },
            { id := 2, email := "b@x.com", firebase_uid := none, username := none,
              display_name := none, profile_picture := none, updated_at := 0 }]
  lists := []
  list_collaborators := []
  places := []
  user_follows := []
  nextUserId := 3
  nextPlaceId := 1
  now := 7

/-- Witness for C7: following user 2 twice from user 1 on `dbC7` leaves
exactly one edge row. -/
theorem follow_semantics_wit :
    userExists dbC7 2 ∧ countEdge dbC7 1 2 ≤ 1 ∧
    countEdge (follow_user (follow_user dbC7 1 2).1 1 2).1 1 2 = 1 := by
  have hT : userExists dbC7 2 :=
    ⟨{ id := 2, email := "b@x.com", firebase_uid := none, username := none,
       display_name := none, profile_picture := none, updated_at := 0 },
     by simp [dbC7], rfl⟩
  refine ⟨hT, by decide, ?_⟩
  exact (follow_semantics dbC7 1 2 hT (by decide)).2.2.1

/-! ## Identity Resolver (`crud_user.create_user` /
`get_or_create_user_by_firebase`) -/

/-- `FirebaseTokenData` (app/schemas/token.py): the verified token payload
consumed by the resolver.  A missing value is `none` (Python `None`; an
empty string is equally falsy for the validation below). -/
structure FirebaseTokenData where
  uid : Option String
  email : Option String
  name : Option String
  picture : Option String
deriving Repr, DecidableEq

/-- `create_user` (crud_user.py:92-119): `INSERT INTO users (email,
firebase_uid, display_name, profile_picture, ...) RETURNING id`.  A
uniqueness violation — on `users.email` or `users.firebase_uid`, both
unique per spec §3 — is caught and re-raised as
`UsernameAlreadyExistsError` ("User with email ... already exists"); the
function performs no re-query. -/
def create_user (db : DB) (email firebase_uid : String)
    (display_name profile_picture : Option String) : DB × Except UserErr Nat :=
  if db.users.any (fun u => u.email == email) ||
      db.users.any (fun u => u.firebase_uid == some firebase_uid) then
    (db, .error .usernameAlreadyExists)
  else
    let uid := db.nextUserId
    let row : UserRow :=
      { id := uid, email := email, firebase_uid := some firebase_uid,
        username := none, display_name := display_name,
        profile_picture := profile_picture, updated_at := db.now }
    ({ db with users := db.users ++ [row], nextUserId := uid + 1 }, .ok uid)

/-- `get_or_create_user_by_firebase` (crud_user.py:141-204), with the race
window of spec §5 made explicit.  The lookups run against `db`;
`raceCommits` are the user rows committed by concurrent transactions at the
storage I/O boundary between the email lookup and the INSERT of the create
path (spec §5: suspension occurs only at storage I/O boundaries);
`raceCommits = []` is the race-free sequential run.  When the INSERT
collides, the surrounding transaction rolls back this call's (empty) write
set, the competitor's committed row remains visible, and the typed error
raised by `create_user` is re-raised unchanged to the caller
(crud_user.py:198-199). -/
def get_or_create_user_by_firebase (db : DB) (token : FirebaseTokenData)
    (raceCommits : List UserRow) : DB × Except UserErr (Nat × Bool) :=
  match token.email with
  | none => (db, .error .valueError)
  | some email =>
    match token.uid with
    | none => (db, .error .valueError)
    | some firebase_uid =>
      match db.users.find? (fun u => u.firebase_uid == some firebase_uid) with
      | some u =>
        let full := db.users.find? (fun v => v.id == u.id)
        let needs := match full with
          | some v => v.username == none
          | none => true
        (db, .ok (u.id, needs))
      | none =>
        match db.users.find? (fun u => u.email == email) with
        | some u =>
          let full := db.users.find? (fun v => v.id == u.id)
          let needs := match full with
            | some v => v.username == none
            | none => true
          if u.firebase_uid == some firebase_uid then
            (db, .ok (u.id, needs))
          else
            ({ db with users := db.users.map (fun v =>
                if v.id == u.id then
                  { v with firebase_uid := some firebase_uid, updated_at := db.now }
                else v) }, .ok (u.id, needs))
        | none =>
          let dbIns := { db with users := db.users ++ raceCommits }
          match create_user dbIns email firebase_uid token.name token.picture with
          | (db2, .ok uid) => (db2, .ok (uid, true))
          | (db2, .error e) => (db2, .error e)

/-- Empty database for the C5 counterexample. -/
def dbC5 : DB where
  users := []
  lists := []
  list_collaborators := []
  places := []
  user_follows := []
  nextUserId := 1
  nextPlaceId := 1
  now := 5

/-- The user row committed by the concurrent transaction that wins the C5
race. -/
def winnerC5 : UserRow where
  id := 41
  email := "a@x.com"
  firebase_uid := some "F"
  username := none
  display_name := none
  profile_picture := none
  updated_at := 0

/-- The token both racing resolutions carry in the C5 scenario. -/
def tokenC5 : FirebaseTokenData where
  uid := some "F"
  email := some "a@x.com"
  name := none
  picture := none

/-- C5 counterexample: when a concurrent resolution for the same identity
commits first, the losing resolver returns the typed conflict
(`UsernameAlreadyExistsError`) to its caller — it does not re-query and
return the winning user row (id 41), with either value of
`needs_username`. -/
theorem resolver_race_cex :
    (get_or_create_user_by_firebase dbC5 tokenC5 [winnerC5]).2 =
      .error .usernameAlreadyExists ∧
    (get_or_create_user_by_firebase dbC5 tokenC5 [winnerC5]).2 ≠ .ok (41, true) ∧
    (get_or_create_user_by_firebase dbC5 tokenC5 [winnerC5]).2 ≠ .ok (41, false) := by
  have h : (get_or_create_user_by_firebase dbC5 tokenC5 [winnerC5]).2 =
      .error .usernameAlreadyExists := rfl
  refine ⟨h, ?_, ?_⟩ <;> (rw [h]; intro hb; cases hb)

/-- C5 (amended): when the create step of the resolver collides on a
storage uniqueness constraint because a concurrent attempt won the race,
the conflict is caught and re-interpreted as the typed already-exists error
(`UsernameAlreadyExistsError`), and that typed error — never the raw
storage conflict — propagates to the caller; the resolver performs no
re-query and does not return the winning row. -/
theorem resolver_race_propagates_typed_conflict
    (db : DB) (email fuid : String) (name picture : Option String)
    (raceCommits : List UserRow)
    (hnouid : db.users.find? (fun u => u.firebase_uid == some fuid) = none)
    (hnoemail : db.users.find? (fun u => u.email == email) = none)
    (hconflict : ((db.users ++ raceCommits).any (fun u => u.email == email) ||
      (db.users ++ raceCommits).any (fun u => u.firebase_uid == some fuid)) = true) :
    get_or_create_user_by_firebase db ⟨some fuid, some email, name, picture⟩ raceCommits =
      ({ db with users := db.users ++ raceCommits }, .error .usernameAlreadyExists) := by
  unfold get_or_create_user_by_firebase
  dsimp only
  rw [hnouid]
  dsimp only
  rw [hnoemail]
  dsimp only
  unfold create_user
  rw [if_pos hconflict]

/-- Witness for the amended C5 at the concrete race scenario. -/
theorem resolver_race_propagates_typed_conflict_wit :
    dbC5.users.find? (fun u => u.firebase_uid == some "F") = none ∧
    dbC5.users.find? (fun u => u.email == "a@x.com") = none ∧
    ((dbC5.users ++ [winnerC5]).any (fun u => u.email == "a@x.com") ||
      (dbC5.users ++ [winnerC5]).any (fun u => u.firebase_uid == some "F")) = true ∧
    get_or_create_user_by_firebase dbC5 ⟨some "F", some "a@x.com", none, none⟩
        [winnerC5] =
      ({ dbC5 with users := dbC5.users ++ [winnerC5] }, .error .usernameAlreadyExists) := by
  refine ⟨rfl, rfl, rfl, ?_⟩
  exact resolver_race_propagates_typed_conflict dbC5 "a@x.com" "F" none none
    [winnerC5] rfl rfl rfl

/-! ## Paginated listings (`crud_list.get_user_lists_paginated`,
`crud_user.get_following` and the endpoint paging arithmetic) -/

/-- The stable ordering `ORDER BY l.created_at DESC, l.id DESC`
(crud_list.py:137, `_ORDER_BY`). -/
def listPageOrder (a b : ListRow) : Bool :=
  decide (b.created_at < a.created_at) ||
    (a.created_at == b.created_at && decide (b.id ≤ a.id))

/-- `get_user_lists_paginated` (crud_list.py:140-169): `SELECT COUNT(*)`
first (short-circuiting to `([], 0)` when zero), then the page query with
`ORDER BY created_at DESC, id DESC LIMIT page_size OFFSET
(page-1)*page_size`.  The `place_count` projection is read-time only and
not part of the row model. -/
def get_user_lists_paginated (db : DB) (owner_id page page_size : Nat) :
    List ListRow × Nat :=
  let offset := (page - 1) * page_size
  let matching := db.lists.filter (fun l => l.owner_id == owner_id)
  let total := matching.length
  if total == 0 then ([], 0)
  else (((matching.mergeSort listPageOrder).drop offset).take page_size, total)

/-- The endpoint paging arithmetic
`math.ceil(total_items / page_size) if page_size > 0 else 0`
(users.py:244 and the other endpoint wrappers). -/
def total_pages (total_items page_size : Nat) : Nat :=
  if 0 < page_size then (total_items + page_size - 1) / page_size else 0

/-- `ASC NULLS LAST` comparison on an optional text column. -/
def optStrLeNullsLast (a b : Option String) : Bool :=
  match a, b with
  | none, none => true
  | none, some _ => false
  | some _, none => true
  | some x, some y => decide (x ≤ y)

/-- The ordering `ORDER BY u.username ASC NULLS LAST, u.display_name ASC
NULLS LAST` of the follow listings (crud_user.py:267). -/
def followListOrder (a b : UserRow) : Bool :=
  if a.username == b.username then optStrLeNullsLast a.display_name b.display_name
  else optStrLeNullsLast a.username b.username

/-- `get_following` (crud_user.py:248-276): `COUNT(*)` over `user_follows`
by follower (short-circuiting on zero), then the page query joining `users`
on `followed_id`, ordered and paged. -/
def get_following (db : DB) (user_id page page_size : Nat) :
    List UserRow × Nat :=
  let offset := (page - 1) * page_size
  let followed := db.user_follows.filter (fun f => f.follower_id == user_id)
  let total := followed.length
  if total == 0 then ([], 0)
  else
    let joined := followed.filterMap
      (fun f => db.users.find? (fun u => u.id == f.followed_id))
    (((joined.mergeSort followListOrder).drop offset).take page_size, total)

/-- The `GET /following` endpoint (users.py:228-259): forwards to
`get_following` and reports `total_pages` via the ceiling arithmetic. -/
def get_following_endpoint (db : DB) (user_id page page_size : Nat) :
    List UserRow × Nat × Nat :=
  let r := get_following db user_id page page_size
  (r.1, r.2, total_pages r.2 page_size)

theorem total_pages_zero (ps : Nat) : total_pages 0 ps = 0 := by
  unfold total_pages
  split
  · rename_i hps
    rw [Nat.zero_add]
    exact Nat.div_eq_of_lt (by omega)
  · rfl

theorem total_pages_succ (n ps : Nat) (hps : 0 < ps) (hn : 0 < n) :
    total_pages n ps = total_pages (n - ps) ps + 1 := by
  unfold total_pages
  rw [if_pos hps, if_pos hps]
  rcases Nat.le_total n ps with h | h
  · have h1 : n - ps = 0 := by omega
    have e1 : (n + ps - 1) / ps = 1 := Nat.div_eq_of_lt_le (by omega) (by omega)
    have e2 : (ps - 1) / ps = 0 := Nat.div_eq_of_lt (by omega)
    rw [h1, Nat.zero_add, e1, e2]
  · have h2 : n + ps - 1 = (n - ps + ps - 1) + ps := by omega
    rw [h2, Nat.add_div_right _ hps]

/-- Splitting a list into `total_pages` consecutive chunks of `ps` elements
reassembles the list exactly. -/
theorem chunks_flatten {α : Type} (ps : Nat) (hps : 0 < ps) (xs : List α) :
    ((List.range (total_pages xs.length ps)).map
      (fun i => (xs.drop (i * ps)).take ps)).flatten = xs := by
  rcases Nat.eq_zero_or_pos xs.length with h0 | hpos
  · rw [h0, total_pages_zero]
    simp [List.eq_nil_of_length_eq_zero h0]
  · have hlt : (xs.drop ps).length < xs.length := by
      rw [List.length_drop]
      omega
    have ih := chunks_flatten ps hps (xs.drop ps)
    rw [total_pages_succ _ _ hps hpos, List.range_succ_eq_map]
    rw [List.map_cons, List.flatten_cons]
    have hmaps : (List.range (total_pages (xs.length - ps) ps)).map
        ((fun i => (xs.drop (i * ps)).take ps) ∘ Nat.succ) =
        (List.range (total_pages (xs.drop ps).length ps)).map
        (fun i => ((xs.drop ps).drop (i * ps)).take ps) := by
      rw [List.length_drop]
      apply List.map_congr_left
      intro i hi
      simp only [Function.comp]
      rw [List.drop_drop, Nat.succ_mul, Nat.add_comm (i * ps) ps]
    rw [List.map_map, hmaps, ih]
    simp [List.take_append_drop]
termination_by xs.length

/-- The endpoint arithmetic equals the mathematical ceiling
`⌈total / page_size⌉`. -/
theorem total_pages_eq_ceil (n ps : Nat) (hps : 0 < ps) :
    total_pages n ps = ⌈(n : ℚ) / (ps : ℚ)⌉₊ := by
  have hpsQ : (0 : ℚ) < (ps : ℚ) := by exact_mod_cast hps
  rcases Nat.eq_zero_or_pos n with h0 | hn
  · rw [h0, total_pages_zero]
    simp
  · have hdm : ps * ((n + ps - 1) / ps) + (n + ps - 1) % ps = n + ps - 1 :=
      Nat.div_add_mod _ _
    have hmod : (n + ps - 1) % ps < ps := Nat.mod_lt _ hps
    have htp : total_pages n ps = (n + ps - 1) / ps := by
      unfold total_pages
      rw [if_pos hps]
    rw [htp]
    set t := (n + ps - 1) / ps with ht
    have h1 : n ≤ t * ps := by
      rw [Nat.mul_comm]
      omega
    have ht1 : 1 ≤ t := by
      by_contra hc
      have : t = 0 := by omega
      rw [this] at hdm
      omega
    have h2 : (t - 1) * ps < n := by
      have : (t - 1) * ps = t * ps - ps := by
        rw [Nat.sub_mul, Nat.one_mul]
      rw [this, Nat.mul_comm]
      omega
    apply Nat.le_antisymm
    · -- t ≤ ceil: t - 1 < ceil
      have : (t - 1 : Nat) < ⌈(n : ℚ) / (ps : ℚ)⌉₊ := by
        rw [Nat.lt_ceil]
        rw [lt_div_iff₀ hpsQ]
        calc ((t - 1 : Nat) : ℚ) * (ps : ℚ) = (((t - 1) * ps : Nat) : ℚ) := by
              push_cast
              ring
          _ < (n : ℚ) := by exact_mod_cast h2
      omega
    · rw [Nat.ceil_le]
      rw [div_le_iff₀ hpsQ]
      calc (n : ℚ) ≤ ((t * ps : Nat) : ℚ) := by exact_mod_cast h1
        _ = (t : ℚ) * (ps : ℚ) := by push_cast; ring

theorem get_user_lists_paginated_eq (db : DB) (owner_id page page_size : Nat) :
    get_user_lists_paginated db owner_id page page_size =
      (if (db.lists.filter (fun l => l.owner_id == owner_id)).length == 0 then ([], 0)
      else ((((db.lists.filter (fun l => l.owner_id == owner_id)).mergeSort
          listPageOrder).drop ((page - 1) * page_size)).take page_size,
        (db.lists.filter (fun l => l.owner_id == owner_id)).length)) := rfl

theorem get_following_eq (db : DB) (user_id page page_size : Nat) :
    get_following db user_id page page_size =
      (if (db.user_follows.filter (fun f => f.follower_id == user_id)).length == 0 then
        ([], 0)
      else (((((db.user_follows.filter (fun f => f.follower_id == user_id)).filterMap
          (fun f => db.users.find? (fun u => u.id == f.followed_id))).mergeSort
            followListOrder).drop ((page - 1) * page_size)).take page_size,
        (db.user_follows.filter (fun f => f.follower_id == user_id)).length)) := rfl

theorem length_filterMap_of_isSome {α β : Type} (g : α → Option β) (l : List α)
    (h : ∀ x ∈ l, (g x).isSome) : (l.filterMap g).length = l.length := by
  induction l with
  | nil => rfl
  | cons a t ih =>
    have ha := h a (List.mem_cons_self a t)
    rcases hg : g a with _ | b
    · rw [hg] at ha
      cases ha
    · rw [List.filterMap_cons, hg]
      simp only [List.length_cons]
      rw [ih (fun x hx => h x (List.mem_cons_of_mem a hx))]

theorem listPageOrder_trans :
    ∀ a b c : ListRow, listPageOrder a b → listPageOrder b c → listPageOrder a c := by
  intro a b c hab hbc
  simp only [listPageOrder, Bool.or_eq_true, decide_eq_true_eq, Bool.and_eq_true,
    beq_iff_eq] at *
  omega

theorem listPageOrder_total :
    ∀ a b : ListRow, listPageOrder a b || listPageOrder b a := by
  intro a b
  simp only [listPageOrder, Bool.or_eq_true, decide_eq_true_eq, Bool.and_eq_true,
    beq_iff_eq]
  omega

/-- C8: at a fixed page_size ≥ 1, the pages 1..total_pages of a listing
reassemble the complete filtered result set — the concatenation is exactly
the sorted result and hence a permutation of the matching rows, with no
duplicates and no omissions; the reported total counts every matching row;
`total_pages = ⌈total / page_size⌉`; the list-shaped listing is ordered by
creation time descending with ties broken by id descending; and the same
page-completeness holds for the follower-shaped listing together with the
ceiling arithmetic its endpoint reports. -/
theorem pagination_complete
    (db : DB) (owner_id user_id page_size : Nat) (hps : 0 < page_size)
    (hFKf : ∀ f ∈ db.user_follows, ∃ u ∈ db.users, u.id = f.followed_id) :
    ((get_user_lists_paginated db owner_id 1 page_size).2 =
      (db.lists.filter (fun l => l.owner_id == owner_id)).length) ∧
    (((List.range (total_pages
          (db.lists.filter (fun l => l.owner_id == owner_id)).length page_size)).map
        (fun i => (get_user_lists_paginated db owner_id (i + 1) page_size).1)).flatten =
      (db.lists.filter (fun l => l.owner_id == owner_id)).mergeSort listPageOrder) ∧
    (((List.range (total_pages
          (db.lists.filter (fun l => l.owner_id == owner_id)).length page_size)).map
        (fun i => (get_user_lists_paginated db owner_id (i + 1) page_size).1)).flatten).Perm
      (db.lists.filter (fun l => l.owner_id == owner_id)) ∧
    (((List.range (total_pages
          (db.lists.filter (fun l => l.owner_id == owner_id)).length page_size)).map
        (fun i => (get_user_lists_paginated db owner_id (i + 1) page_size).1)).flatten.Pairwise
      (fun a b => listPageOrder a b = true)) ∧
    (total_pages (db.lists.filter (fun l => l.owner_id == owner_id)).length page_size =
      ⌈((db.lists.filter (fun l => l.owner_id == owner_id)).length : ℚ) /
        (page_size : ℚ)⌉₊) ∧
    ((get_following db user_id 1 page_size).2 =
      (db.user_follows.filter (fun f => f.follower_id == user_id)).length) ∧
    (((List.range (total_pages
          (db.user_follows.filter (fun f => f.follower_id == user_id)).length
          page_size)).map
        (fun i => (get_following db user_id (i + 1) page_size).1)).flatten).Perm
      ((db.user_follows.filter (fun f => f.follower_id == user_id)).filterMap
        (fun f => db.users.find? (fun u => u.id == f.followed_id))) ∧
    ((get_following_endpoint db user_id 1 page_size).2.2 =
      ⌈((db.user_follows.filter (fun f => f.follower_id == user_id)).length : ℚ) /
        (page_size : ℚ)⌉₊) := by
  have hsortlen : ((db.lists.filter (fun l => l.owner_id == owner_id)).mergeSort
      listPageOrder).length =
      (db.lists.filter (fun l => l.owner_id == owner_id)).length :=
    (List.mergeSort_perm _ _).length_eq
  have hLflat : ((List.range (total_pages
        (db.lists.filter (fun l => l.owner_id == owner_id)).length page_size)).map
      (fun i => (get_user_lists_paginated db owner_id (i + 1) page_size).1)).flatten =
      (db.lists.filter (fun l => l.owner_id == owner_id)).mergeSort listPageOrder := by
    by_cases h0 : (db.lists.filter (fun l => l.owner_id == owner_id)).length = 0
    · rw [h0, total_pages_zero]
      have hnil : db.lists.filter (fun l => l.owner_id == owner_id) = [] :=
        List.eq_nil_of_length_eq_zero h0
      rw [hnil]
      simp
    · have hpage : ∀ i ∈ List.range (total_pages
          (db.lists.filter (fun l => l.owner_id == owner_id)).length page_size),
          (get_user_lists_paginated db owner_id (i + 1) page_size).1 =
          (((db.lists.filter (fun l => l.owner_id == owner_id)).mergeSort
            listPageOrder).drop (i * page_size)).take page_size := by
        intro i _
        rw [get_user_lists_paginated_eq]
        rw [if_neg (by simp [h0])]
        simp
      rw [List.map_congr_left hpage]
      have := chunks_flatten page_size hps
        ((db.lists.filter (fun l => l.owner_id == owner_id)).mergeSort listPageOrder)
      rw [hsortlen] at this
      exact this
  have hJsome : ∀ f ∈ db.user_follows.filter (fun f => f.follower_id == user_id),
      (db.users.find? (fun u => u.id == f.followed_id)).isSome := by
    intro f hf
    obtain ⟨u, hu, huid⟩ := hFKf f (List.mem_of_mem_filter hf)
    rw [List.find?_isSome]
    exact ⟨u, hu, by simp [huid]⟩
  have hjoinlen : ((db.user_follows.filter (fun f => f.follower_id == user_id)).filterMap
      (fun f => db.users.find? (fun u => u.id == f.followed_id))).length =
      (db.user_follows.filter (fun f => f.follower_id == user_id)).length :=
    length_filterMap_of_isSome _ _ hJsome
  have hFflat : ((List.range (total_pages
        (db.user_follows.filter (fun f => f.follower_id == user_id)).length
        page_size)).map
      (fun i => (get_following db user_id (i + 1) page_size).1)).flatten =
      ((db.user_follows.filter (fun f => f.follower_id == user_id)).filterMap
        (fun f => db.users.find? (fun u => u.id == f.followed_id))).mergeSort
        followListOrder := by
    by_cases h0 : (db.user_follows.filter (fun f => f.follower_id == user_id)).length = 0
    · rw [h0, total_pages_zero]
      have hnil : db.user_follows.filter (fun f => f.follower_id == user_id) = [] :=
        List.eq_nil_of_length_eq_zero h0
      rw [hnil]
      simp
    · have hpage : ∀ i ∈ List.range (total_pages
          (db.user_follows.filter (fun f => f.follower_id == user_id)).length page_size),
          (get_following db user_id (i + 1) page_size).1 =
          ((((db.user_follows.filter (fun f => f.follower_id == user_id)).filterMap
            (fun f => db.users.find? (fun u => u.id == f.followed_id))).mergeSort
              followListOrder).drop (i * page_size)).take page_size := by
        intro i _
        rw [get_following_eq]
        rw [if_neg (by simp [h0])]
        simp
      rw [List.map_congr_left hpage]
      have := chunks_flatten page_size hps
        (((db.user_follows.filter (fun f => f.follower_id == user_id)).filterMap
          (fun f => db.users.find? (fun u => u.id == f.followed_id))).mergeSort
          followListOrder)
      rw [(List.mergeSort_perm _ _).length_eq, hjoinlen] at this
      exact this
  refine ⟨?_, hLflat, ?_, ?_, total_pages_eq_ceil _ _ hps, ?_, ?_, ?_⟩
  · rw [get_user_lists_paginated_eq]
    rcases hb : ((db.lists.filter (fun l => l.owner_id == owner_id)).length == 0 : Bool)
        with _ | _
    · rw [if_neg (by simp [hb])]
    · rw [if_pos (by simp_all)]
      simp only [beq_iff_eq] at hb
      rw [hb]
  · rw [hLflat]
    exact List.mergeSort_perm _ _
  · rw [hLflat]
    exact List.sorted_mergeSort listPageOrder_trans listPageOrder_total _
  · rw [get_following_eq]
    rcases hb : ((db.user_follows.filter (fun f => f.follower_id == user_id)).length == 0 :
        Bool) with _ | _
    · rw [if_neg (by simp [hb])]
    · rw [if_pos (by simp_all)]
      simp only [beq_iff_eq] at hb
      rw [hb]
  · rw [hFflat]
    exact List.mergeSort_perm _ _
  · show total_pages (get_following db user_id 1 page_size).2 page_size = _
    have h6 : (get_following db user_id 1 page_size).2 =
        (db.user_follows.filter (fun f => f.follower_id == user_id)).length := by
      rw [get_following_eq]
      rcases hb : ((db.user_follows.filter (fun f => f.follower_id == user_id)).length == 0 :
          Bool) with _ | _
      · rw [if_neg (by simp [hb])]
      · rw [if_pos (by simp_all)]
        simp only [beq_iff_eq] at hb
        rw [hb]
    rw [h6]
    exact total_pages_eq_ceil _ _ hps

/-- Concrete database for the C8 witness: two lists owned by user 10 with
equal creation timestamps, users 1 and 2, and a follow edge 1 → 2. -/
def dbC8 : DB where
  users := [{ id := 1, email := "a@x.com", firebase_uid := none, username := none,
              display_name := none, profile_picture := none, updated_at := 0 },
            { id := 2, email := "b@x.com", firebase_uid := none, username := none,
              display_name := none, profile_picture := none, updated_at := 0 }]
  lists := [{ id := 1, owner_id := 10, name := "A", description := none,
              is_private := false, created_at := 4, updated_at := 0 },
            { id := 2, owner_id := 10, name := "B", description := none,
              is_private := false, created_at := 4, updated_at := 0 }]
  list_collaborators := []
  places := []
  user_follows := [{ follower_id := 1, followed_id := 2, created_at := 0 }]
  nextUserId := 3
  nextPlaceId := 1
  now := 9

/-- Witness for C8 at page_size 1 on `dbC8`: the follow edges all resolve,
and the endpoint arithmetic equals the ceiling. -/
theorem pagination_complete_wit :
    (∀ f ∈ dbC8.user_follows, ∃ u ∈ dbC8.users, u.id = f.followed_id) ∧
    total_pages (dbC8.lists.filter (fun l => l.owner_id == 10)).length 1 =
      ⌈((dbC8.lists.filter (fun l => l.owner_id == 10)).length : ℚ) /
        ((1 : Nat) : ℚ)⌉₊ := by
  have hFK : ∀ f ∈ dbC8.user_follows, ∃ u ∈ dbC8.users, u.id = f.followed_id := by
    intro f hf
    simp only [dbC8, List.mem_singleton] at hf
    refine ⟨{ id := 2, email := "b@x.com", firebase_uid := none, username := none,
              display_name := none, profile_picture := none, updated_at := 0 },
            by simp [dbC8], ?_⟩
    rw [hf]
  exact ⟨hFK, (pagination_complete dbC8 10 1 1 (by decide) hFK).2.2.2.2.1⟩

end Sesame
